import Mathlib

/-!
Verification of `dataset.py` (snapshot-gnss-data): a shallow embedding of the
snapshot decoder (`Dataset.get_snapshot`), the index handling, the ground-truth
track construction (`Dataset.__init__`) and the error computation
(`Dataset.get_error`), together with proofs of the specification's claims.

Machine bytes are modelled as natural numbers; the int8 samples of the decoder
live in ℤ (the arithmetic `-2*b + 1` on bits 0/1 cannot overflow int8); the
float32/float64 arithmetic of the normalization and of the distance pipeline is
modelled exactly over ℚ and ℝ.
-/

/-- The value of `int(4092000.0 * 12e-3 / 8)` from `get_snapshot`: number of bytes read per
snapshot file (4.092 MHz × 12 ms / 8 bits = 6138). -/
def bytes_per_snapshot : ℕ := 4092000 * 12 / 1000 / 8

/-- Model of `np.unpackbits` on one byte with `bitorder='little'`: bit 0 (the least
significant bit) is emitted first, bit 7 last. -/
def unpackbitsByte (b : ℕ) : List ℕ :=
  (List.range 8).map (fun i => b / 2 ^ i % 2)

/-- Model of `np.unpackbits(signal_bytes, bitorder='little')`: concatenation of the
little-endian bit expansions of the bytes, in byte order. -/
def unpackbits (bs : List ℕ) : List ℕ :=
  bs.flatMap unpackbitsByte

/-- Model of `np.fromfile(filename, dtype='>u1', count=n)`: reads at most `n` bytes from
the file; when the file holds fewer than `n` bytes it silently returns the
bytes that are present (no exception is raised). -/
def fromfile (file : List ℕ) (count : ℕ) : List ℕ :=
  file.take count

/-- The sample map `-2 * signal.astype(np.int8) + 1`: maps a raw bit `b ∈ {0,1}` to the
bipolar sample `-2*b + 1 ∈ {-1,+1}`. -/
def bit2sample (b : ℕ) : ℤ :=
  -2 * (b : ℤ) + 1

/-- The decoding part of `Dataset.get_snapshot` with `normalize=False`, applied
to the bytes of one snapshot file: read up to `bytes_per_snapshot` bytes,
unpack the bits in little-endian bit order, map `{0,1}` to `{-1,+1}`. -/
def get_snapshot_samples (file : List ℕ) : List ℤ :=
  (unpackbits (fromfile file bytes_per_snapshot)).map bit2sample

/-- Model of `np.mean(signal)`: the arithmetic mean of the samples, exact over ℚ. -/
def mean (s : List ℤ) : ℚ :=
  (s.map (fun x : ℤ => (x : ℚ))).sum / s.length

/-- The arithmetic mean of a rational-valued sequence. -/
def meanQ (s : List ℚ) : ℚ :=
  s.sum / s.length

/-- The decoding part of `Dataset.get_snapshot` with `normalize=True`:
`signal.astype(np.float32); signal - np.mean(signal)`, modelled exactly
over ℚ. -/
def get_snapshot_normalized (file : List ℕ) : List ℚ :=
  (get_snapshot_samples file).map
    (fun x : ℤ => (x : ℚ) - mean (get_snapshot_samples file))

/-- Python list indexing `l[idx]` for `idx : ℤ`: nonnegative indices are
looked up directly, indices in `[-len(l), -1]` address from the end, and
everything else raises `IndexError` (modelled as `none`). -/
def pyGet {α : Type} (l : List α) (idx : ℤ) : Option α :=
  if 0 ≤ idx then l[idx.toNat]?
  else if 0 ≤ idx + l.length then l[(idx + l.length).toNat]?
  else none

/-- Model of `Dataset.get_snapshot(idx)`: resolve the file by Python indexing into the
filename list (an `IndexError` is caught, reported, and `None` is returned
with no file access), then read and decode the bytes of that file. The dataset
is modelled by the list of the byte contents of its snapshot files. -/
def get_snapshot (files : List (List ℕ)) (idx : ℤ) : Option (List ℤ) :=
  (pyGet files idx).map get_snapshot_samples

-- Ground-truth track construction (`Dataset.__init__`, lines 105-146).

/-- A geodetic point: (latitude, longitude) in degrees. -/
abbrev GeoPoint : Type := ℚ × ℚ

/-- One iteration of the ground-truth loop for a single discovered file:
`self._ref_location = self._ground_truth[0]` followed by
`pm.geodetic2enu(lats, lons, 0, ref_lat, ref_lon, 0)` — the segment's own
first point becomes the reference and every point of the segment is converted
with it. `enu` is the external geodetic→local-frame primitive, returning the
(east, north) pair of a point with respect to a reference. -/
def convertSegment (enu : GeoPoint → GeoPoint → ℚ × ℚ)
    (seg : List GeoPoint) : List (ℚ × ℚ) :=
  match seg with
  | [] => []
  | r :: _ => seg.map (fun g => enu g r)

/-- The ground-truth loop of `Dataset.__init__` over all discovered files
followed by `np.vstack`: each file's points are converted by `convertSegment`
(with that file's own first point as reference) and the converted segments are
concatenated in discovery order. -/
def buildTrack (enu : GeoPoint → GeoPoint → ℚ × ℚ)
    (segs : List (List GeoPoint)) : List (ℚ × ℚ) :=
  (segs.map (convertSegment enu)).flatten

/-- The value of `self._ref_location` after the ground-truth loop: the first point of the
last discovered file (the loop overwrites it on every iteration). -/
def refLocation (segs : List (List GeoPoint)) : Option GeoPoint :=
  segs.getLast?.bind List.head?

/-- Modelled from the spec: "reference point = first point of the (possibly
multi-segment, concatenated) point sequence; convert every track point to
local-frame (east, north) using that reference". This is the construction the
specification describes for the Track variant, to be compared with
`buildTrack` from the source. -/
def buildTrackSpec (enu : GeoPoint → GeoPoint → ℚ × ℚ)
    (segs : List (List GeoPoint)) : List (ℚ × ℚ) :=
  match segs.flatten with
  | [] => []
  | r :: _ => segs.flatten.map (fun g => enu g r)

/-- A concrete instance of the external geodetic→ENU primitive (a linearized
conversion: east = Δlongitude, north = Δlatitude), used to exhibit concrete
behaviour of the track construction. -/
def enuLin : GeoPoint → GeoPoint → ℚ × ℚ :=
  fun g r => (g.2 - r.2, g.1 - r.1)

-- Error computation (`Dataset.get_error`, lines 301-328).

/-- An IEEE-like value as it flows through `get_error`: a finite real, NaN, or
positive infinity. -/
inductive FVal : Type
  | fin (x : ℝ)
  | nan
  | inf

/-- Model of `np.linalg.norm(np.array([e, n]))`: the 2D Euclidean norm; NaN inputs
propagate to NaN, infinite inputs to infinity. -/
noncomputable def normF : FVal → FVal → FVal
  | .fin a, .fin b => .fin (Real.sqrt (a ^ 2 + b ^ 2))
  | .nan, _ => .nan
  | _, .nan => .nan
  | .inf, _ => .inf
  | _, .inf => .inf

/-- The final step of `get_error`:
`if np.isnan(err): return np.inf else: return err`. -/
def finalizeError : FVal → FVal
  | .nan => .inf
  | e => e

/-- Model of `Dataset.get_error(latitude, longitude)` for the `Point` ground-truth
variant (`self._track is None`): convert the test point to the local frame of
the stored reference with the external primitive `enu` (returning
(east, north, up)), take the 2D Euclidean norm of (east, north), and map a NaN
result to positive infinity. -/
noncomputable def get_error (enu : GeoPoint → GeoPoint → FVal × FVal × FVal)
    (ref test : GeoPoint) : FVal :=
  finalizeError (normF (enu test ref).1 (enu test ref).2.1)

-- Nearest distance to the track (`Dataset.get_error`, lines 307-321).

/-- Clamp a projection parameter to `[0, 1]`. -/
def clamp01 (t : ℚ) : ℚ :=
  if t < 0 then 0 else if 1 < t then 1 else t

/-- Squared Euclidean distance from `p` to the point of segment `[a, b]`
nearest to `p`: the orthogonal projection parameter is clamped to `[0, 1]`
(a degenerate segment contributes the distance to its endpoint). -/
def segNearestSq (p a b : ℚ × ℚ) : ℚ :=
  let dx := b.1 - a.1
  let dy := b.2 - a.2
  let len2 := dx ^ 2 + dy ^ 2
  let t := clamp01 (if len2 = 0 then 0 else
    ((p.1 - a.1) * dx + (p.2 - a.2) * dy) / len2)
  let cx := a.1 + t * dx
  let cy := a.2 + t * dy
  (p.1 - cx) ^ 2 + (p.2 - cy) ^ 2

/-- The consecutive segments of a polyline given by its vertex list. -/
def segmentsOf : List (ℚ × ℚ) → List ((ℚ × ℚ) × (ℚ × ℚ))
  | a :: b :: rest => (a, b) :: segmentsOf (b :: rest)
  | _ => []

/-- Minimum of a list of rationals (`none` for the empty list). -/
def minOver : List ℚ → Option ℚ
  | [] => none
  | x :: xs =>
    some (match minOver xs with
          | none => x
          | some m => min x m)

/-- Modelled from the spec: `self._track.interpolate(self._track.project(pt))`
followed by `np.linalg.norm(nearest_point.coords[0] - pos_enu[:2])` — the
nearest-point-on-polyline projection of `shapely` (an external library): for
each segment clamp the projection parameter to `[0,1]`, take the squared
Euclidean distance to the clamped point, and minimize over the segments. This
returns the squared distance; the distance itself is its square root. -/
def nearestDistSq (p : ℚ × ℚ) (pts : List (ℚ × ℚ)) : Option ℚ :=
  minOver ((segmentsOf pts).map (fun s => segNearestSq p s.1 s.2))

/-- The horizontal error of `Dataset.get_error` for the `Track` variant, for a
test point already expressed in the local (east, north) frame: the Euclidean
distance from the test point to the nearest point on the polyline (0 when the
polyline has no segment). -/
noncomputable def nearest_distance_track (p : ℚ × ℚ) (pts : List (ℚ × ℚ)) : ℝ :=
  match nearestDistSq p pts with
  | some q => Real.sqrt (q : ℝ)
  | none => 0

-- Helper lemmas.

/-- The byte count read per snapshot evaluates to 6138. -/
theorem bytes_per_snapshot_eq : bytes_per_snapshot = 6138 := by
  norm_num [bytes_per_snapshot]

/-- The function `unpackbits` emits exactly 8 bits per input byte. -/
theorem unpackbits_length (bs : List ℕ) :
    (unpackbits bs).length = 8 * bs.length := by
  induction bs with
  | nil => simp [unpackbits]
  | cons c cs ih =>
    simp only [unpackbits, List.flatMap_cons, List.length_append] at *
    simp only [unpackbitsByte, List.length_map, List.length_range, ih,
      List.length_cons]
    ring

/-- Every value emitted by `unpackbits` is a bit, whatever the input bytes. -/
theorem mem_unpackbits {b : ℕ} {bs : List ℕ} (h : b ∈ unpackbits bs) :
    b = 0 ∨ b = 1 := by
  simp only [unpackbits, List.mem_flatMap, unpackbitsByte, List.mem_map,
    List.mem_range] at h
  obtain ⟨c, -, i, -, rfl⟩ := h
  exact Nat.mod_two_eq_zero_or_one _

/-- Subtracting a constant from every element of an integer list shifts the
(rational) sum by the length times the constant. -/
theorem sum_map_sub (l : List ℤ) (m : ℚ) :
    (l.map (fun x : ℤ => (x : ℚ) - m)).sum
      = (l.map (fun x : ℤ => (x : ℚ))).sum - l.length * m := by
  induction l with
  | nil => simp
  | cons a as ih =>
    simp only [List.map_cons, List.sum_cons, List.length_cons, ih]
    push_cast
    ring

-- Claim theorems.

/-- C1: the claim demands that decoding a buffer of fewer than 6138 bytes
fail with a `TruncatedInputError`, never yielding a short sample sequence.
The code has no such error path: `np.fromfile(..., count=6138)` silently
returns the bytes present, and the pipeline decodes them. Evaluated at a
one-byte snapshot file (byte `0x01`), the decoder returns an 8-sample
sequence — contradicting both the claim and the function's own docstring,
which promises shape `(49104,)`. -/
theorem truncated_file_silently_decodes_short :
    (get_snapshot_samples [1]).length = 8 ∧
    get_snapshot_samples [1] = [-1, 1, 1, 1, 1, 1, 1, 1] ∧
    (get_snapshot_samples [1]).length ≠ 49104 := by
  decide

/-- C2: decoding uses little-endian bit order within each byte and maps bit
`b` to sample `-2*b + 1`: for the 6138-byte buffer whose first byte is `0x01`
and whose remaining bytes are `0x00`, the first decoded sample is `-1` and
the following 7 samples of that byte are `+1`. -/
theorem bit_order_little_endian_first_byte :
    (get_snapshot_samples (1 :: List.replicate 6137 0)).take 8
      = [-1, 1, 1, 1, 1, 1, 1, 1] := by
  decide

/-- C3: for every 6138-byte buffer, the non-normalized decode produces exactly
49104 samples, each in `{-1, +1}`, in the integer domain, and decoding is
deterministic (equal buffers give equal outputs). -/
theorem get_snapshot_samples_spec (file : List ℕ) (h : file.length = 6138) :
    (get_snapshot_samples file).length = 49104 ∧
    (∀ x ∈ get_snapshot_samples file, x = -1 ∨ x = 1) ∧
    (∀ g : List ℕ, g = file →
      get_snapshot_samples g = get_snapshot_samples file) := by
  refine ⟨?_, ?_, fun g hg => hg ▸ rfl⟩
  · simp only [get_snapshot_samples, List.length_map, unpackbits_length,
      fromfile, List.length_take, bytes_per_snapshot_eq, h, min_self]
  · intro x hx
    simp only [get_snapshot_samples, List.mem_map] at hx
    obtain ⟨b, hb, rfl⟩ := hx
    rcases mem_unpackbits hb with rfl | rfl
    · right; rfl
    · left; rfl

/-- Witness for C3: the all-zero 6138-byte buffer satisfies the hypothesis and
decodes to 49104 samples. -/
theorem get_snapshot_samples_spec_witness :
    (List.replicate 6138 0).length = 6138 ∧
    (get_snapshot_samples (List.replicate 6138 0)).length = 49104 :=
  ⟨List.length_replicate .., (get_snapshot_samples_spec _ (List.length_replicate ..)).1⟩

/-- C4: for every 6138-byte buffer, the normalized decode has the same length
49104 as the raw decode, equals the raw decode minus its arithmetic mean
elementwise, and its arithmetic mean is exactly 0 (hence within every positive
tolerance, in particular 1e-6).  Float arithmetic is modelled exactly
over ℚ. -/
theorem get_snapshot_normalized_spec (file : List ℕ) (h : file.length = 6138) :
    (get_snapshot_normalized file).length = 49104 ∧
    get_snapshot_normalized file
      = (get_snapshot_samples file).map
          (fun x : ℤ => (x : ℚ) - mean (get_snapshot_samples file)) ∧
    meanQ (get_snapshot_normalized file) = 0 := by
  have hlen : (get_snapshot_samples file).length = 49104 :=
    (get_snapshot_samples_spec file h).1
  refine ⟨by simp only [get_snapshot_normalized, List.length_map, hlen],
    rfl, ?_⟩
  have hs : (get_snapshot_normalized file).sum = 0 := by
    rw [get_snapshot_normalized, sum_map_sub, mean, hlen]
    field_simp
  rw [meanQ, hs, zero_div]

/-- Witness for C4: the all-zero 6138-byte buffer satisfies the hypothesis and
its normalized decode has mean exactly 0. -/
theorem get_snapshot_normalized_spec_witness :
    (List.replicate 6138 0).length = 6138 ∧
    meanQ (get_snapshot_normalized (List.replicate 6138 0)) = 0 :=
  ⟨List.length_replicate ..,
    (get_snapshot_normalized_spec _ (List.length_replicate ..)).2.2⟩

/-- C5: the claim says a multi-file track is built with a single shared
reference — the first point of the whole concatenated sequence. The loop in
`Dataset.__init__` instead re-assigns `self._ref_location` to each file's own
first point and converts that file's points with it. Evaluated at two
discovered files `[(0,0),(0,1)]` and `[(10,10),(10,11)]` with a linearized
conversion primitive: the built track differs from the spec's construction,
the stored reference ends up as the second file's first point `(10,10)`, and
the first point of the concatenated sequence is `(0,0)`. For a single file the
two constructions agree. -/
theorem buildTrack_uses_per_file_reference :
    buildTrack enuLin [[(0, 0), (0, 1)], [(10, 10), (10, 11)]]
      ≠ buildTrackSpec enuLin [[(0, 0), (0, 1)], [(10, 10), (10, 11)]] ∧
    refLocation [[(0, 0), (0, 1)], [(10, 10), (10, 11)]]
      = some ((10 : ℚ), (10 : ℚ)) ∧
    ([[(0, 0), (0, 1)], [(10, 10), (10, 11)]] :
      List (List GeoPoint)).flatten.head? = some ((0 : ℚ), (0 : ℚ)) ∧
    buildTrack enuLin [[(0, 0), (0, 1)]]
      = buildTrackSpec enuLin [[(0, 0), (0, 1)]] := by
  refine ⟨?_, ?_, ?_, ?_⟩
  · norm_num [buildTrack, buildTrackSpec, convertSegment, enuLin]
  · norm_num [refLocation]
  · norm_num
  · norm_num [buildTrack, buildTrackSpec, convertSegment, enuLin]

/-- C6: the nearest distance to the 2-point track from local `(0,0)` to
`(100,0)` is `5` for the test point `(50, 5)` (perpendicular projection onto
the segment interior) and `50` for the test point `(150, 0)` (projection
clamped to the segment endpoint), exactly as the claim's approximate values
require. -/
theorem nearest_distance_track_examples :
    nearest_distance_track (50, 5) [(0, 0), (100, 0)] = 5 ∧
    nearest_distance_track (150, 0) [(0, 0), (100, 0)] = 50 := by
  constructor
  · have h : nearestDistSq (50, 5) [(0, 0), (100, 0)] = some 25 := by
      norm_num [nearestDistSq, segmentsOf, segNearestSq, minOver, clamp01]
    rw [nearest_distance_track, h]
    show Real.sqrt ((25 : ℚ) : ℝ) = 5
    rw [show (((25 : ℚ)) : ℝ) = (5 : ℝ) ^ 2 by norm_num]
    exact Real.sqrt_sq (by norm_num)
  · have h : nearestDistSq (150, 0) [(0, 0), (100, 0)] = some 2500 := by
      norm_num [nearestDistSq, segmentsOf, segNearestSq, minOver, clamp01]
    rw [nearest_distance_track, h]
    show Real.sqrt ((2500 : ℚ) : ℝ) = 50
    rw [show (((2500 : ℚ)) : ℝ) = (50 : ℝ) ^ 2 by norm_num]
    exact Real.sqrt_sq (by norm_num)

/-- C7 counterexample: the claim says every index outside `[0, size())` is
reported as out of range with no file access; but for a dataset of size 1 the
index `-1` resolves by Python negative indexing and a snapshot is returned,
not the `None` report. -/
theorem get_snapshot_neg_index_not_reported :
    get_snapshot [[0]] (-1) ≠ none := by
  decide

/-- C7 (amended): for every index `idx` with `idx ≥ size()` or
`idx < -size()`, `get_snapshot` reports the out-of-range condition (returns
`None` after the caught `IndexError`) and performs no file access — the
result is determined by the dataset size alone, as the theorem holds for all
file contents of that length. -/
theorem get_snapshot_out_of_range (files : List (List ℕ)) (idx : ℤ)
    (h : (files.length : ℤ) ≤ idx ∨ idx < -(files.length : ℤ)) :
    get_snapshot files idx = none := by
  rcases h with h | h
  · have h0 : 0 ≤ idx := le_trans (Int.ofNat_nonneg _) h
    have hlen : files.length ≤ idx.toNat := by omega
    simp [get_snapshot, pyGet, h0, List.getElem?_eq_none hlen]
  · have h0 : ¬ 0 ≤ idx := by omega
    have h1 : ¬ 0 ≤ idx + files.length := by omega
    simp [get_snapshot, pyGet, h0, h1]

/-- Witness for C7 (amended): for a dataset of size 1, index 1 equals the size
and is reported out of range. -/
theorem get_snapshot_out_of_range_witness :
    ((([[0]] : List (List ℕ)).length : ℤ) ≤ 1) ∧
    get_snapshot [[0]] 1 = none :=
  ⟨by norm_num, get_snapshot_out_of_range [[0]] 1 (Or.inl (by norm_num))⟩

/-- C8: for the `Point` ground-truth variant, `get_error` returns the 2D
Euclidean norm of the (east, north) local-frame conversion of the test point
with respect to the stored reference; when the conversion of the reference
point itself is `(0, 0, 0)` — as the geodetic→ENU primitive guarantees at its
own reference — the error is exactly 0. -/
theorem get_error_point_spec (enu : GeoPoint → GeoPoint → FVal × FVal × FVal)
    (ref test : GeoPoint) (e n u : ℝ)
    (h : enu test ref = (.fin e, .fin n, .fin u)) :
    get_error enu ref test = .fin (Real.sqrt (e ^ 2 + n ^ 2)) ∧
    (e = 0 → n = 0 → get_error enu ref test = .fin 0) := by
  have hg : get_error enu ref test = .fin (Real.sqrt (e ^ 2 + n ^ 2)) := by
    rw [get_error, h]
    rfl
  refine ⟨hg, fun he hn => ?_⟩
  rw [hg, he, hn]
  norm_num

/-- Witness for C8: a conversion primitive that sends the test point to the
local origin makes the reported error exactly 0. -/
theorem get_error_point_spec_witness :
    get_error (fun _ _ => (FVal.fin 0, FVal.fin 0, FVal.fin 0)) (0, 0) (0, 0)
      = FVal.fin 0 :=
  (get_error_point_spec _ (0, 0) (0, 0) 0 0 0 rfl).2 rfl rfl

/-- C9: whenever the computed norm is NaN, `get_error` returns positive
infinity (the `np.isnan` sentinel branch), and for every conversion primitive
and every input the result is either positive infinity or a finite
non-negative number — never NaN, and no exception path exists (the function
is total). -/
theorem get_error_classification
    (enu : GeoPoint → GeoPoint → FVal × FVal × FVal) (ref test : GeoPoint) :
    (normF (enu test ref).1 (enu test ref).2.1 = .nan →
      get_error enu ref test = .inf) ∧
    (get_error enu ref test = .inf ∨
      ∃ x : ℝ, get_error enu ref test = .fin x ∧ 0 ≤ x) := by
  rw [get_error]
  rcases he : (enu test ref).1 with x | _ | _ <;>
    rcases hn : (enu test ref).2.1 with y | _ | _ <;>
      simp [normF, finalizeError]

/-- Witness for C9: a conversion primitive returning NaN east makes the
computed norm NaN and the reported error positive infinity. -/
theorem get_error_classification_witness :
    get_error (fun _ _ => (FVal.nan, FVal.fin 0, FVal.fin 0)) (0, 0) (0, 0)
      = FVal.inf :=
  (get_error_classification _ (0, 0) (0, 0)).1 rfl

/-- C10: for a non-empty dataset, `get_snapshot(-1)` is not reported out of
range: Python negative indexing resolves it to the last snapshot, so it
returns exactly what index `size() - 1` returns, and that is a decoded
snapshot, not the `None` report. -/
theorem get_snapshot_neg_one (files : List (List ℕ)) (h : files ≠ []) :
    get_snapshot files (-1) = get_snapshot files ((files.length : ℤ) - 1) ∧
    get_snapshot files (-1) ≠ none := by
  have hpos : 0 < files.length := List.length_pos.mpr h
  have h0 : ¬ (0 : ℤ) ≤ -1 := by omega
  have h1 : (0 : ℤ) ≤ -1 + files.length := by omega
  have h2 : (0 : ℤ) ≤ (files.length : ℤ) - 1 := by omega
  have e1 : ((-1 : ℤ) + files.length).toNat = files.length - 1 := by omega
  have e2 : ((files.length : ℤ) - 1).toNat = files.length - 1 := by omega
  have hlt : files.length - 1 < files.length := by omega
  constructor
  · simp [get_snapshot, pyGet, h0, h1, h2, e1, e2]
  · simp [get_snapshot, pyGet, h0, h1, e1, List.getElem?_eq_getElem hlt]

/-- Witness for C10: a dataset with one snapshot file; index -1 resolves to
index 0. -/
theorem get_snapshot_neg_one_witness :
    (([[0]] : List (List ℕ)) ≠ []) ∧
    get_snapshot [[0]] (-1)
      = get_snapshot [[0]] ((([[0]] : List (List ℕ)).length : ℤ) - 1) :=
  ⟨by simp, (get_snapshot_neg_one [[0]] (by simp)).1⟩
